import Mathlib

/-!
Verification of the audio-reactive LED controller (ESP32 / MAX9814 / WS2812B).

The development shallowly embeds the signal-processing pipeline and the
mode-dependent render step of `lightMusicTask`, which exists in two
near-duplicate variants (variant 1: `src/main.cpp`, groups "circles" 28 LEDs
and "squares" 32 LEDs; variant 2: the unnamed source, four groups of
16/12/16/16 LEDs).  `double` values are modelled as rationals with the
literal coefficients of the source; C `int` values are modelled as `ℤ`,
with `Int.tdiv` for C's truncating division and `ratTrunc` for the
double-to-int conversion.  The external FFT library (window weights, DFT
twiddle tables, square root) is taken as parameters of the embedding.
-/

namespace LightMusic

/-- RGB color of one LED (`CRGB` of FastLED); components are byte values. -/
structure Color where
  r : ℤ
  g : ℤ
  b : ℤ
deriving DecidableEq

/-- The `CRGB(r, g, b)` constructor: `int` arguments are stored into
`uint8_t` fields, i.e. reduced modulo 256. -/
def mkCRGB (r g b : ℤ) : Color := ⟨r % 256, g % 256, b % 256⟩

/-- The cleared (dark) color written by `FastLED.clear()`. -/
def blackC : Color := ⟨0, 0, 0⟩

def redC : Color := mkCRGB 255 0 0

def greenC : Color := mkCRGB 0 255 0

def blueC : Color := mkCRGB 0 0 255

/-- The `CRGB(255, 0, 170)` color of the energy-bucket mode. -/
def pinkC : Color := mkCRGB 255 0 170

/-- A LED group buffer, as a map from LED index to color. -/
def clearedF : ℕ → Color := fun _ => blackC

/-- `std::fill(leds + lo, leds + hi, c)` / `fill_solid(leds + lo, hi - lo, c)`:
overwrite the half-open index range `[lo, hi)` with color `c`. -/
def fillRange (lo hi : ℕ) (c : Color) (f : ℕ → Color) : ℕ → Color :=
  fun i => if lo ≤ i ∧ i < hi then c else f i

/-- A single indexed write `leds[j] = c`. -/
def writeIdx (j : ℕ) (c : Color) (f : ℕ → Color) : ℕ → Color :=
  fun i => if i = j then c else f i

/-- A loop of indexed writes `leds[j] = c` for `j` drawn from a list. -/
def writeList (js : List ℕ) (c : Color) (f : ℕ → Color) : ℕ → Color :=
  js.foldl (fun g j => writeIdx j c g) f

/-- Conversion of a `double` to a C integer: truncation toward zero. -/
def ratTrunc (q : ℚ) : ℤ := Int.tdiv q.num (q.den : ℤ)

/-- Modelled from the spec: the Arduino-core `map` called by the render
modes is platform code that is not part of this repository; the spec
states clamp-then-scale semantics for it ("`map` semantics: clamp then
scale"): inputs at or below the input minimum give the output minimum,
inputs at or above the input maximum give the output maximum, and in
between the value is scaled linearly with the platform's truncating
integer division. -/
def mapRange (x inMin inMax outMin outMax : ℤ) : ℤ :=
  if x ≤ inMin then outMin
  else if inMax ≤ x then outMax
  else Int.tdiv ((x - inMin) * (outMax - outMin)) (inMax - inMin) + outMin

/-- Modelled from the spec: the Arduino-core `constrain(x, lo, hi)` used
right after `map` in the raw render modes; it clamps `x` into `[lo, hi]`. -/
def constrain (x lo hi : ℤ) : ℤ :=
  if x < lo then lo else if hi < x then hi else x

/-- Step 1-2 of the pipeline: acquisition with anomaly correction.
`acquired raw i` is the value stored in `vReal[i]` after the sampling
loop, for the sequence `raw` of readings returned by `analogRead(34)`:
a reading below 0 or above 4095 is replaced by the previously stored
sample, or by 2048 for the first sample. -/
def acquired (raw : ℕ → ℚ) : ℕ → ℚ
  | 0 => if raw 0 < 0 ∨ 4095 < raw 0 then 2048 else raw 0
  | i + 1 => if raw (i + 1) < 0 ∨ 4095 < raw (i + 1) then acquired raw i else raw (i + 1)

/-- Step 3: DC removal — subtract the arithmetic mean (`mean /= SAMPLES`,
with `SAMPLES = 128`) from every sample. -/
def dcRemove (x : List ℚ) : List ℚ :=
  let m := x.sum / 128
  x.map (fun v => v - m)

/-- The IIR loop body for indices `i > 0`:
`filtered[i] = 0.7 * filtered[i-1] + 0.3 * vReal[i]`. -/
def iirAux (prev : ℚ) : List ℚ → List ℚ
  | [] => []
  | xi :: rest =>
    let yi := 7/10 * prev + 3/10 * xi
    yi :: iirAux yi rest

/-- Step 4: the first-order recursive smoothing filter; `filtered[0] = vReal[0]`
and `filtered[i] = 0.7 * filtered[i-1] + 0.3 * vReal[i]` for `i > 0`. -/
def iirFilter : List ℚ → List ℚ
  | [] => []
  | x0 :: rest => x0 :: iirAux x0 rest

/-- Modelled from the spec: `FFT.windowing(vReal, SAMPLES, FFT_WIN_TYP_HAMMING,
FFT_FORWARD)` lives in the external arduinoFFT library; the spec describes it
as pointwise multiplication of the block by a Hamming weight per index, so the
weight table `w` is a parameter of the embedding. -/
def applyWindow (w : ℕ → ℚ) (x : List ℚ) : List ℚ :=
  List.zipWith (fun a b => a * b) ((List.range x.length).map w) x

/-- Modelled from the spec: real part of bin `k` of `FFT.compute` (external
arduinoFFT library); the spec describes it as the discrete Fourier transform
of the block, so the cosine table `c` is a parameter of the embedding. -/
def dftRe (c : ℕ → ℕ → ℚ) (x : List ℚ) (k : ℕ) : ℚ :=
  ((List.range x.length).map (fun n => x.getD n 0 * c k n)).sum

/-- Modelled from the spec: imaginary part of bin `k` of `FFT.compute`
(external arduinoFFT library), with the sine table `s` as a parameter. -/
def dftIm (s : ℕ → ℕ → ℚ) (x : List ℚ) (k : ℕ) : ℚ :=
  ((List.range x.length).map (fun n => -(x.getD n 0 * s k n))).sum

/-- Modelled from the spec: `FFT.complexToMagnitude` (external arduinoFFT
library) replaces the block by the magnitude of every complex bin; the square
root `sq` is a parameter of the embedding. -/
def magnitudes (sq : ℚ → ℚ) (c s : ℕ → ℕ → ℚ) (x : List ℚ) : List ℚ :=
  (List.range x.length).map (fun k => sq (dftRe c x k ^ 2 + dftIm s x k ^ 2))

/-- Step 7 accumulation: `ampR += abs(vReal[i])` where the accumulator is a C
`int`, so every addition truncates the `double` sum back to an integer. -/
def bandAccum (ms : List ℚ) : ℤ :=
  ms.foldl (fun a m => ratTrunc ((a : ℚ) + |m|)) 0

/-- Bass amplitude: magnitudes of bins `[0, 20)` accumulated and divided by 20
(`ampR /= 20`, truncating `int` division). -/
def ampBass (ms : List ℚ) : ℤ := Int.tdiv (bandAccum (ms.take 20)) 20

/-- Mid amplitude: bins `[20, 80)`, divided by 60. -/
def ampMid (ms : List ℚ) : ℤ := Int.tdiv (bandAccum ((ms.drop 20).take 60)) 60

/-- Treble amplitude: bins `[80, 128)`, divided by 48. -/
def ampTreble (ms : List ℚ) : ℤ := Int.tdiv (bandAccum (ms.drop 80)) 48

/-- Step 8 energy: `avgEnergy = sqrt(totalEnergy / SAMPLES)` with
`totalEnergy` the sum of squared magnitudes; `sq` is the square-root
parameter of the embedding. -/
def energyOf (sq : ℚ → ℚ) (ms : List ℚ) : ℚ :=
  sq ((ms.map (fun m => m * m)).sum / 128)

/-- Step 8 normalization: `if (avgEnergy > 0)` rescale each band by
`(amp / avgEnergy) * gain` with gains 150/100/150, truncated back into the
`int` amplitude variables; otherwise the amplitudes are left unchanged. -/
def normalizeAmps (aR aG aB : ℤ) (e : ℚ) : ℤ × ℤ × ℤ :=
  if 0 < e then
    (ratTrunc ((aR : ℚ) / e * 150), ratTrunc ((aG : ℚ) / e * 100),
      ratTrunc ((aB : ℚ) / e * 150))
  else (aR, aG, aB)

/-- Steps 3-6 composed: DC removal, IIR filter, windowing, transform,
magnitudes (the contents of `vReal` after `complexToMagnitude`). -/
def spectrum (w : ℕ → ℚ) (c s : ℕ → ℕ → ℚ) (sq : ℚ → ℚ) (x : List ℚ) : List ℚ :=
  magnitudes sq c s (applyWindow w (iirFilter (dcRemove x)))

/-- Steps 3-8 composed: the per-cycle spectral analyzer, from the acquired
block to `(ampR, ampG, ampB, avgEnergy)`. -/
def analyzer (w : ℕ → ℚ) (c s : ℕ → ℕ → ℚ) (sq : ℚ → ℚ) (x : List ℚ) :
    ℤ × ℤ × ℤ × ℚ :=
  let ms := spectrum w c s sq x
  let e := energyOf sq ms
  let amps := normalizeAmps (ampBass ms) (ampMid ms) (ampTreble ms) e
  (amps.1, amps.2.1, amps.2.2, e)

/-- Mode 5 of variant 2 re-runs the spectral path on the retained raw copy:
DC removal, windowing, transform, magnitudes — without the IIR stage. -/
def rawSpectrum (w : ℕ → ℚ) (c s : ℕ → ℕ → ℚ) (sq : ℚ → ℚ) (x : List ℚ) : List ℚ :=
  magnitudes sq c s (applyWindow w (dcRemove x))

/-- Mode 5 of variant 2: band amplitudes of the raw copy; here the
accumulators are `double`, so sums and divisions are exact, and the same
energy guard and gains are applied. -/
def rawAmps (w : ℕ → ℚ) (c s : ℕ → ℕ → ℚ) (sq : ℚ → ℚ) (x : List ℚ) :
    ℚ × ℚ × ℚ :=
  let ms := rawSpectrum w c s sq x
  let aR := ((ms.take 20).map (fun v => |v|)).sum / 20
  let aG := (((ms.drop 20).take 60).map (fun v => |v|)).sum / 60
  let aB := ((ms.drop 80).map (fun v => |v|)).sum / 48
  let e := energyOf sq ms
  if 0 < e then (aR / e * 150, aG / e * 100, aB / e * 150) else (aR, aG, aB)

/-- State of the temporal smoother for one band: the static `avgAmp` value
and the shared static `count` (a C `int`). -/
structure Smooth where
  avg : ℚ
  count : ℤ
deriving DecidableEq

/-- Step 9, one cycle for one band:
`avgAmp = (avgAmp * count + amp) / (count + 1)`, then `count++` and
`if (count > 50) count = 50`. -/
def smoothStep (st : Smooth) (a : ℚ) : Smooth :=
  { avg := (st.avg * (st.count : ℚ) + a) / ((st.count : ℚ) + 1)
    count := if 50 < st.count + 1 then 50 else st.count + 1 }

/-- The smoother state after `n` cycles with per-cycle inputs `inp`, from
the process-start state `avg = 0`, `count = 0`. -/
def smoothRun (inp : ℕ → ℚ) : ℕ → Smooth
  | 0 => ⟨0, 0⟩
  | n + 1 => smoothStep (smoothRun inp n) (inp n)

/-- Threshold derivation `porig = avgAmp * k` stored into a C `int`. -/
def porigOf (avg k : ℚ) : ℤ := ratTrunc (avg * k)

/-- Tier count for the bass segment of the tiered bar mode (mode 1 of both
variants and mode 4 of variant 1): number of LEDs filled red, from the
ascending threshold chain `porigR`, `porigR * 1.25`, `1.5`, `1.75`, `2`. -/
def bassCount (a p : ℤ) : ℕ :=
  if a < p then 1
  else if (a : ℚ) < (p : ℚ) * (5/4) then 2
  else if (a : ℚ) < (p : ℚ) * (3/2) then 3
  else if (a : ℚ) < (p : ℚ) * (7/4) then 4
  else if a < p * 2 then 5
  else 6

/-- Tier count for the mid segment: thresholds `porigG`, `* 1.3`, `1.6`, `1.9`. -/
def midCount (a p : ℤ) : ℕ :=
  if a < p then 1
  else if (a : ℚ) < (p : ℚ) * (13/10) then 2
  else if (a : ℚ) < (p : ℚ) * (8/5) then 3
  else if (a : ℚ) < (p : ℚ) * (19/10) then 4
  else 5

/-- Tier count for the treble segment: thresholds `porigB`, `* 1.3`, `1.6`, `1.9`. -/
def trebCount (a p : ℤ) : ℕ :=
  if a < p then 1
  else if (a : ℚ) < (p : ℚ) * (13/10) then 2
  else if (a : ℚ) < (p : ℚ) * (8/5) then 3
  else if (a : ℚ) < (p : ℚ) * (19/10) then 4
  else 5

/-- The tiered bar mode on a 16-LED group: red prefix run from index 0,
green run from index 6, blue run from index 11, written in that order over
the cleared buffer. -/
def mode1Frame (aR pR aG pG aB pB : ℤ) : ℕ → Color :=
  fillRange 11 (11 + trebCount aB pB) blueC
    (fillRange 6 (6 + midCount aG pG) greenC
      (fillRange 0 (bassCount aR pR) redC clearedF))

/-- The brightness of the wash modes:
`map((ampR + ampG + ampB) / 3, 0, ceil, 0, 255)` (C `int` division by 3). -/
def washBrightness (aR aG aB ceil : ℤ) : ℤ :=
  mapRange (Int.tdiv (aR + aG + aB) 3) 0 ceil 0 255

/-- The two LED group buffers of variant 1 (`leds_circles`: 16 + 12 LEDs,
`leds_squares`: 16 + 16 LEDs). -/
structure Frames1 where
  circles : ℕ → Color
  squares : ℕ → Color

/-- The render dispatch of variant 1 (`src/main.cpp`): after `FastLED.clear()`,
the chain `if (mode == 1) ... else if (mode == 7) ...` fills the group
buffers from the cycle's amplitudes and thresholds; an unmatched mode leaves
both buffers cleared. -/
def renderV1 (mode aR aG aB pR pG pB : ℤ) : Frames1 :=
  if mode = 1 then
    ⟨mode1Frame aR pR aG pG aB pB, clearedF⟩
  else if mode = 2 then
    let b := washBrightness aR aG aB 600
    ⟨fillRange 16 28 (mkCRGB b 0 b) clearedF, clearedF⟩
  else if mode = 3 then
    let b := washBrightness aR aG aB 600
    ⟨fillRange 0 28 (mkCRGB b 0 b) clearedF, clearedF⟩
  else if mode = 4 then
    ⟨clearedF, mode1Frame aR pR aG pG aB pB⟩
  else if mode = 5 then
    let b := washBrightness aR aG aB 600
    ⟨clearedF, fillRange 16 32 (mkCRGB b 0 b) clearedF⟩
  else if mode = 6 then
    let b := washBrightness aR aG aB 600
    ⟨clearedF, fillRange 0 32 (mkCRGB b 0 b) clearedF⟩
  else if mode = 7 then
    let b := washBrightness aR aG aB 1500
    ⟨fillRange 0 28 (mkCRGB b 0 b) clearedF, fillRange 0 32 (mkCRGB b 0 b) clearedF⟩
  else
    ⟨clearedF, clearedF⟩

/-- Variant 2, mode 2 (rotating sweep): the position counter is reset to 0
when it reaches 12 and the corresponding LED of the small circle is set
blue; the counter increment is gated by the energy-dependent sweep delay. -/
def mode2Frame (smallCircle : ℤ) : ℕ → Color :=
  writeIdx (if smallCircle < 12 then smallCircle else 0).toNat blueC clearedF

/-- Variant 2, mode 2: the sweep delay `1000000 / avgEnergy` of the guard
`millis() - current_time > 1000000 / avgEnergy`; the division has no guard
of its own, so a zero denominator is a division by zero, modelled as `none`. -/
def sweepDelay (avgEnergy : ℚ) : Option ℚ :=
  if avgEnergy = 0 then none else some (1000000 / avgEnergy)

/-- Variant 2, mode 2: the whole guard expression, which evaluates the sweep
delay unconditionally inside the branch. -/
def mode2Guard (elapsed avgEnergy : ℚ) : Option Bool :=
  (sweepDelay avgEnergy).map (fun d => decide (d < elapsed))

/-- Variant 2, mode 3 (energy buckets): number of LEDs of the 16-LED circle
filled `CRGB(255, 0, 170)`, from the chain of `avgEnergy <= 250, 500, ...,
4000` tests; above 4000 no branch matches and nothing is filled. -/
def mode3Count (e : ℚ) : ℕ :=
  if e ≤ 250 then 1
  else if e ≤ 500 then 2
  else if e ≤ 750 then 3
  else if e ≤ 1000 then 4
  else if e ≤ 1250 then 5
  else if e ≤ 1500 then 6
  else if e ≤ 1750 then 7
  else if e ≤ 2000 then 8
  else if e ≤ 2250 then 9
  else if e ≤ 2500 then 10
  else if e ≤ 2750 then 11
  else if e ≤ 3000 then 12
  else if e ≤ 3250 then 13
  else if e ≤ 3500 then 14
  else if e ≤ 3750 then 15
  else if e ≤ 4000 then 16
  else 0

/-- Variant 2, mode 3: the rendered 16-LED frame. -/
def mode3Frame (e : ℚ) : ℕ → Color :=
  fillRange 0 (mode3Count e) pinkC clearedF

/-- First column of the left square in variant 2, mode 4 (red). -/
def redColumn : List ℕ := [0, 7, 8, 15]

/-- Second column of the left square in variant 2, mode 4 (green). -/
def greenColumn : List ℕ := [1, 6, 9, 14]

/-- Third column of the left square in variant 2, mode 4 (blue). -/
def blueColumn : List ℕ := [2, 5, 10, 13]

/-- Variant 2, mode 4: LED count from the raw block — mean absolute
deviation of `vRawData`, scaled by `map(rawAmplitude, 0, 500, 0, 13)`
(truncating the `double` argument to `long`) and clamped to `[0, 12]`. -/
def mode4NumLeds (raw : List ℚ) : ℤ :=
  let m := raw.sum / 128
  let amp := (raw.map (fun v => |v - m|)).sum / 128
  constrain (mapRange (ratTrunc amp) 0 500 0 13) 0 12

/-- Variant 2, mode 4: the left-square frame — up to 4 LEDs per column,
columns filled in red, green, blue order as the count grows past 4 and 8. -/
def mode4Frame (raw : List ℚ) : ℕ → Color :=
  let n := mode4NumLeds raw
  let f1 := if 0 < n then writeList (redColumn.take (min n 4).toNat) redC clearedF
            else clearedF
  let f2 := if 4 < n then writeList (greenColumn.take (min (n - 4) 4).toNat) greenC f1
            else f1
  if 8 < n then writeList (blueColumn.take (min (n - 8) 4).toNat) blueC f2 else f2

/-- Variant 2, mode 5: the pair (left square, right square) of frames.  The
left square shows the raw-copy band amplitudes as three 4-LED columns filled
from the low index; the right square shows the live band amplitudes with the
fill order inverted.  Each count is `map(amp, 0, 255, 0, 5)` clamped to
`[0, 4]`. -/
def mode5Frames (w : ℕ → ℚ) (c s : ℕ → ℕ → ℚ) (sq : ℚ → ℚ)
    (raw : List ℚ) (aR aG aB : ℤ) : (ℕ → Color) × (ℕ → Color) :=
  let ra := rawAmps w c s sq raw
  let nRr := (constrain (mapRange (ratTrunc ra.1) 0 255 0 5) 0 4).toNat
  let nGr := (constrain (mapRange (ratTrunc ra.2.1) 0 255 0 5) 0 4).toNat
  let nBr := (constrain (mapRange (ratTrunc ra.2.2) 0 255 0 5) 0 4).toNat
  let nR := (constrain (mapRange aR 0 255 0 5) 0 4).toNat
  let nG := (constrain (mapRange aG 0 255 0 5) 0 4).toNat
  let nB := (constrain (mapRange aB 0 255 0 5) 0 4).toNat
  (fillRange 8 (8 + nBr) blueC
     (fillRange 4 (4 + nGr) greenC (fillRange 0 nRr redC clearedF)),
   fillRange (8 - nB) 8 blueC
     (fillRange (12 - nG) 12 greenC (fillRange (16 - nR) 16 redC clearedF)))

/-- The per-cycle inputs of the variant-2 render dispatch. -/
structure In2 where
  aR : ℤ
  aG : ℤ
  aB : ℤ
  pR : ℤ
  pG : ℤ
  pB : ℤ
  avgEnergy : ℚ
  smallCircle : ℤ
  raw : List ℚ

/-- The four LED group buffers of variant 2. -/
structure Frames2 where
  c16 : ℕ → Color
  c12 : ℕ → Color
  lsq : ℕ → Color
  rsq : ℕ → Color

/-- The render dispatch of variant 2 (the unnamed source): after
`FastLED.clear()`, the chain `if (mode == 1) ... else if (mode == 7) ...`
fills the four group buffers; an unmatched mode leaves all four cleared. -/
def renderV2 (w : ℕ → ℚ) (c s : ℕ → ℕ → ℚ) (sq : ℚ → ℚ) (mode : ℤ) (x : In2) :
    Frames2 :=
  if mode = 1 then
    ⟨mode1Frame x.aR x.pR x.aG x.pG x.aB x.pB, clearedF, clearedF, clearedF⟩
  else if mode = 2 then
    ⟨clearedF, mode2Frame x.smallCircle, clearedF, clearedF⟩
  else if mode = 3 then
    ⟨mode3Frame x.avgEnergy, clearedF, clearedF, clearedF⟩
  else if mode = 4 then
    ⟨clearedF, clearedF, mode4Frame x.raw, clearedF⟩
  else if mode = 5 then
    let fr := mode5Frames w c s sq x.raw x.aR x.aG x.aB
    ⟨clearedF, clearedF, fr.1, fr.2⟩
  else if mode = 6 then
    let b := washBrightness x.aR x.aG x.aB 600
    ⟨clearedF, clearedF, fillRange 0 16 (mkCRGB b 0 0) clearedF,
      fillRange 0 16 (mkCRGB 0 b 0) clearedF⟩
  else if mode = 7 then
    let b := washBrightness x.aR x.aG x.aB 600
    ⟨fillRange 0 16 (mkCRGB b 0 0) clearedF, fillRange 0 12 (mkCRGB 0 b 0) clearedF,
      fillRange 0 16 (mkCRGB b 0 0) clearedF, fillRange 0 16 (mkCRGB 0 b 0) clearedF⟩
  else
    ⟨clearedF, clearedF, clearedF, clearedF⟩

/-- Number of lit (non-cleared) LEDs among the first 16 of a buffer. -/
def litCount16 (f : ℕ → Color) : ℕ :=
  (List.range 16).countP (fun i => decide (f i ≠ blackC))

/-- The energy-estimate values 0, 250, ..., 4000 named by the spec's
energy-bucket property. -/
def energyLevels : List ℚ :=
  [0, 250, 500, 750, 1000, 1250, 1500, 1750, 2000, 2250, 2500,
   2750, 3000, 3250, 3500, 3750, 4000]

/-- The all-zero sample block. -/
def zeroBlock : List ℚ := List.replicate 128 0

/-- Variant-2 render inputs on the all-zero block at process-start state:
zero amplitudes, zero thresholds, zero energy, sweep position 0. -/
def zeroIn2 : In2 := ⟨0, 0, 0, 0, 0, 0, 0, 0, zeroBlock⟩

/-- A throwaway concrete input record for witnesses. -/
def sampleIn2 : In2 := ⟨1, 2, 3, 4, 5, 6, 7, 8, []⟩

lemma acquired_mem (raw : ℕ → ℚ) : ∀ i, 0 ≤ acquired raw i ∧ acquired raw i ≤ 4095 := by
  intro i
  induction i with
  | zero =>
    simp only [acquired]
    split
    · norm_num
    · rename_i h
      push_neg at h
      exact ⟨h.1, h.2⟩
  | succ k ih =>
    simp only [acquired]
    split
    · exact ih
    · rename_i h
      push_neg at h
      exact ⟨h.1, h.2⟩

lemma ratTrunc_zero : ratTrunc 0 = 0 := by
  simp [ratTrunc]

lemma int_tdiv_one (n : ℤ) : Int.tdiv n 1 = n := by
  cases n <;> simp [Int.tdiv, Int.negSucc_eq]

lemma ratTrunc_intCast (n : ℤ) : ratTrunc (n : ℚ) = n := by
  simp [ratTrunc, Rat.num_intCast, Rat.den_intCast, int_tdiv_one]

lemma dcRemove_replicate (n : ℕ) :
    dcRemove (List.replicate n 0) = List.replicate n 0 := by
  simp [dcRemove]

lemma iirAux_zero (n : ℕ) : iirAux 0 (List.replicate n (0 : ℚ)) = List.replicate n 0 := by
  induction n with
  | zero => rfl
  | succ k ih => simp [List.replicate_succ, iirAux, ih]

lemma iirFilter_replicate (n : ℕ) :
    iirFilter (List.replicate n (0 : ℚ)) = List.replicate n 0 := by
  cases n with
  | zero => rfl
  | succ k => simp [List.replicate_succ, iirFilter, iirAux_zero]

lemma zipWith_mul_replicate_zero (l : List ℚ) (n : ℕ) :
    List.zipWith (fun a b => a * b) l (List.replicate n 0) =
      List.replicate (min l.length n) 0 := by
  induction l generalizing n with
  | nil => simp
  | cons a t ih =>
    cases n with
    | zero => simp
    | succ m => simp [List.replicate_succ, ih, Nat.succ_min_succ]

lemma applyWindow_replicate (w : ℕ → ℚ) (n : ℕ) :
    applyWindow w (List.replicate n 0) = List.replicate n 0 := by
  simp [applyWindow, zipWith_mul_replicate_zero]

lemma getD_replicate_zero (n i : ℕ) : (List.replicate n (0 : ℚ)).getD i 0 = 0 := by
  induction n generalizing i with
  | zero => simp
  | succ k ih =>
    cases i with
    | zero => simp [List.replicate_succ]
    | succ j => simp [List.replicate_succ, ih j]

lemma dftRe_replicate (c : ℕ → ℕ → ℚ) (n k : ℕ) :
    dftRe c (List.replicate n 0) k = 0 := by
  apply List.sum_eq_zero
  intro x hx
  simp only [List.mem_map] at hx
  obtain ⟨m, _, rfl⟩ := hx
  simp [getD_replicate_zero]

lemma dftIm_replicate (s : ℕ → ℕ → ℚ) (n k : ℕ) :
    dftIm s (List.replicate n 0) k = 0 := by
  apply List.sum_eq_zero
  intro x hx
  simp only [List.mem_map] at hx
  obtain ⟨m, _, rfl⟩ := hx
  simp [getD_replicate_zero]

lemma magnitudes_replicate (sq : ℚ → ℚ) (c s : ℕ → ℕ → ℚ) (n : ℕ)
    (hsq : sq 0 = 0) :
    magnitudes sq c s (List.replicate n 0) = List.replicate n 0 := by
  apply List.eq_replicate_iff.mpr
  constructor
  · simp [magnitudes]
  · intro b hb
    simp only [magnitudes, List.mem_map] at hb
    obtain ⟨k, _, rfl⟩ := hb
    simp [dftRe_replicate, dftIm_replicate, hsq]

lemma spectrum_zeroBlock (w : ℕ → ℚ) (c s : ℕ → ℕ → ℚ) (sq : ℚ → ℚ)
    (hsq : sq 0 = 0) :
    spectrum w c s sq zeroBlock = List.replicate 128 0 := by
  unfold spectrum zeroBlock
  rw [dcRemove_replicate, iirFilter_replicate, applyWindow_replicate,
    magnitudes_replicate _ _ _ _ hsq]

lemma rawSpectrum_zeroBlock (w : ℕ → ℚ) (c s : ℕ → ℕ → ℚ) (sq : ℚ → ℚ)
    (hsq : sq 0 = 0) :
    rawSpectrum w c s sq zeroBlock = List.replicate 128 0 := by
  unfold rawSpectrum zeroBlock
  rw [dcRemove_replicate, applyWindow_replicate, magnitudes_replicate _ _ _ _ hsq]

lemma bandAccum_replicate (n : ℕ) : bandAccum (List.replicate n 0) = 0 := by
  induction n with
  | zero => rfl
  | succ k ih =>
    have h0 : ratTrunc (((0 : ℤ) : ℚ) + |(0 : ℚ)|) = 0 := by
      simp [ratTrunc_zero]
    simpa [List.replicate_succ, bandAccum, h0] using ih

lemma energyOf_replicate (sq : ℚ → ℚ) (n : ℕ) (hsq : sq 0 = 0) :
    energyOf sq (List.replicate n 0) = 0 := by
  simp [energyOf, hsq]

lemma analyzer_zeroBlock (w : ℕ → ℚ) (c s : ℕ → ℕ → ℚ) (sq : ℚ → ℚ)
    (hsq : sq 0 = 0) :
    analyzer w c s sq zeroBlock = (0, 0, 0, 0) := by
  have hB : ampBass (List.replicate 128 0) = 0 := by
    unfold ampBass
    rw [show (List.replicate 128 (0 : ℚ)).take 20 = List.replicate 20 0 by simp,
      bandAccum_replicate]
    decide
  have hM : ampMid (List.replicate 128 0) = 0 := by
    unfold ampMid
    rw [show ((List.replicate 128 (0 : ℚ)).drop 20).take 60 = List.replicate 60 0 by simp,
      bandAccum_replicate]
    decide
  have hT : ampTreble (List.replicate 128 0) = 0 := by
    unfold ampTreble
    rw [show (List.replicate 128 (0 : ℚ)).drop 80 = List.replicate 48 0 by simp,
      bandAccum_replicate]
    decide
  have hE : energyOf sq (List.replicate 128 0) = 0 := energyOf_replicate sq 128 hsq
  unfold analyzer
  rw [spectrum_zeroBlock _ _ _ _ hsq]
  simp only [hB, hM, hT, hE]
  simp [normalizeAmps]

lemma rawAmps_zeroBlock (w : ℕ → ℚ) (c s : ℕ → ℕ → ℚ) (sq : ℚ → ℚ)
    (hsq : sq 0 = 0) :
    rawAmps w c s sq zeroBlock = (0, 0, 0) := by
  unfold rawAmps
  rw [rawSpectrum_zeroBlock _ _ _ _ hsq]
  simp [energyOf_replicate _ _ hsq]

lemma iirAux_getD (l : List ℚ) : ∀ (p : ℚ) (i : ℕ), i < l.length →
    (p :: iirAux p l).getD (i + 1) 0 =
      7/10 * (p :: iirAux p l).getD i 0 + 3/10 * l.getD i 0 := by
  induction l with
  | nil =>
    intro p i h
    simp at h
  | cons a t ih =>
    intro p i h
    cases i with
    | zero => simp [iirAux]
    | succ j =>
      have hj : j < t.length := by simpa using h
      have hstep := ih (7/10 * p + 3/10 * a) j hj
      simpa [iirAux] using hstep

lemma iirAux_length (p : ℚ) (l : List ℚ) : (iirAux p l).length = l.length := by
  induction l generalizing p with
  | nil => rfl
  | cons a t ih => simp [iirAux, ih]

lemma iirFilter_length (x : List ℚ) : (iirFilter x).length = x.length := by
  cases x with
  | nil => rfl
  | cons x0 t => simp [iirFilter, iirAux_length]

lemma bassCount_bounds (a p : ℤ) : 1 ≤ bassCount a p ∧ bassCount a p ≤ 6 := by
  unfold bassCount
  split_ifs <;> omega

lemma midCount_bounds (a p : ℤ) : 1 ≤ midCount a p ∧ midCount a p ≤ 5 := by
  unfold midCount
  split_ifs <;> omega

lemma trebCount_bounds (a p : ℤ) : 1 ≤ trebCount a p ∧ trebCount a p ≤ 5 := by
  unfold trebCount
  split_ifs <;> omega

lemma bassCount_zero : bassCount 0 0 = 6 := by
  unfold bassCount
  norm_num

lemma fillRange_blackC (lo hi i : ℕ) : fillRange lo hi blackC clearedF i = blackC := by
  simp [fillRange, clearedF, ite_self]

lemma fillRange_mem (lo hi i : ℕ) (c : Color) (f : ℕ → Color)
    (h1 : lo ≤ i) (h2 : i < hi) : fillRange lo hi c f i = c := by
  simp [fillRange, h1, h2]

lemma fillRange_empty (lo hi : ℕ) (c : Color) (f : ℕ → Color) (h : hi ≤ lo) :
    fillRange lo hi c f = f := by
  funext i
  simp only [fillRange]
  rw [if_neg (by omega : ¬(lo ≤ i ∧ i < hi))]

lemma int_zero_tdiv (n : ℤ) : Int.tdiv 0 n = 0 := by
  cases n <;> simp [Int.tdiv]

lemma mapRange_low (x lo hi a b : ℤ) (h : x ≤ lo) : mapRange x lo hi a b = a := by
  simp [mapRange, h]

lemma mapRange_high (x lo hi a b : ℤ) (h1 : lo < x) (h2 : hi ≤ x) :
    mapRange x lo hi a b = b := by
  rw [mapRange, if_neg (by omega), if_pos h2]

lemma mapRange_linear (t ceil : ℤ) (h0 : 0 ≤ t) (h1 : t ≤ ceil) (hc : 0 < ceil) :
    mapRange t 0 ceil 0 255 = Int.tdiv (t * 255) ceil := by
  unfold mapRange
  split_ifs with ha hb
  · have ht : t = 0 := le_antisymm ha h0
    subst ht
    simp [int_zero_tdiv]
  · have ht : t = ceil := le_antisymm h1 hb
    subst ht
    rw [mul_comm, Int.mul_tdiv_cancel _ (by omega : t ≠ 0)]
  · simp

lemma washBrightness_zero (ceil : ℤ) : washBrightness 0 0 0 ceil = 0 := by
  unfold washBrightness
  rw [show ((0 : ℤ) + 0 + 0) = 0 by ring, int_zero_tdiv]
  exact mapRange_low 0 0 ceil 0 255 le_rfl

lemma mkCRGB_zero : mkCRGB 0 0 0 = blackC := by decide

lemma mode1Frame_zero_at0 : mode1Frame 0 0 0 0 0 0 0 = redC := by
  simp [mode1Frame, fillRange, bassCount_zero]

lemma smoothRun_succ (inp : ℕ → ℚ) (n : ℕ) :
    smoothRun inp (n + 1) = smoothStep (smoothRun inp n) (inp n) := rfl

lemma smoothRun_count_nonneg (inp : ℕ → ℚ) : ∀ n, 0 ≤ (smoothRun inp n).count := by
  intro n
  induction n with
  | zero => simp [smoothRun]
  | succ k ih =>
    rw [smoothRun_succ]
    simp only [smoothStep]
    split <;> omega

lemma smoothRun_count_le (inp : ℕ → ℚ) : ∀ n, (smoothRun inp n).count ≤ 50 := by
  intro n
  induction n with
  | zero => simp [smoothRun]
  | succ k ih =>
    rw [smoothRun_succ]
    simp only [smoothStep]
    split <;> omega

lemma smoothRun_const_avg (A : ℚ) : ∀ n, (smoothRun (fun _ => A) (n + 1)).avg = A := by
  intro n
  induction n with
  | zero => simp [smoothRun, smoothStep]
  | succ k ih =>
    have hc0 : (0 : ℤ) ≤ (smoothRun (fun _ => A) (k + 1)).count :=
      smoothRun_count_nonneg _ _
    have hne : ((smoothRun (fun _ => A) (k + 1)).count : ℚ) + 1 ≠ 0 := by
      have h1 : ((smoothRun (fun _ => A) (k + 1)).count + 1 : ℤ) ≠ 0 := by omega
      exact_mod_cast h1
    rw [smoothRun_succ]
    simp only [smoothStep]
    rw [ih, div_eq_iff hne]
    ring

lemma mode4NumLeds_zeroBlock : mode4NumLeds zeroBlock = 0 := by
  simp [mode4NumLeds, zeroBlock, mapRange, constrain, ratTrunc_zero]

lemma mode4Frame_zeroBlock : mode4Frame zeroBlock = clearedF := by
  simp [mode4Frame, mode4NumLeds_zeroBlock]

lemma mode5Frames_zeroBlock (w : ℕ → ℚ) (c s : ℕ → ℕ → ℚ) (sq : ℚ → ℚ)
    (hsq : sq 0 = 0) :
    mode5Frames w c s sq zeroBlock 0 0 0 = (clearedF, clearedF) := by
  unfold mode5Frames
  rw [rawAmps_zeroBlock w c s sq hsq]
  simp only [ratTrunc_zero]
  rw [show mapRange 0 0 255 0 5 = 0 from mapRange_low 0 0 255 0 5 le_rfl]
  simp only [constrain]
  norm_num
  rw [fillRange_empty 0 0 _ _ le_rfl, fillRange_empty 4 4 _ _ le_rfl,
    fillRange_empty 8 8 _ _ le_rfl, fillRange_empty 16 16 _ _ le_rfl,
    fillRange_empty 12 12 _ _ le_rfl, fillRange_empty 8 8 _ _ le_rfl]
  exact ⟨rfl, rfl⟩

/-- C7: in the acquisition step, for every raw reading `r` at position `i` of
the block, if `r < 0` or `r > 4095` the stored sample is the previously
stored sample's value (2048 for `i = 0`), otherwise it is `r` itself;
consequently every stored sample lies in `[0, 4095]`. -/
theorem c7_acquisition (raw : ℕ → ℚ) (i : ℕ) :
    ((raw i < 0 ∨ 4095 < raw i) →
      acquired raw i = if i = 0 then 2048 else acquired raw (i - 1)) ∧
    (0 ≤ raw i → raw i ≤ 4095 → acquired raw i = raw i) ∧
    0 ≤ acquired raw i ∧ acquired raw i ≤ 4095 := by
  refine ⟨?_, ?_, (acquired_mem raw i).1, (acquired_mem raw i).2⟩
  · intro h
    cases i with
    | zero => simp [acquired, h]
    | succ k => simp [acquired, h]
  · intro h1 h2
    have h : ¬(raw i < 0 ∨ 4095 < raw i) := by
      push_neg
      exact ⟨h1, h2⟩
    cases i with
    | zero => simp [acquired, h]
    | succ k => simp [acquired, h]

/-- Witness for C7 at a concrete reading sequence: the first reading 5000 is
out of range and is replaced by mid-scale 2048; the second reading 100 is
stored unchanged and the stored value is in range. -/
theorem c7_acquisition_witness :
    acquired (fun n => if n = 0 then 5000 else 100) 0 = 2048 ∧
    acquired (fun n => if n = 0 then 5000 else 100) 1 = 100 ∧
    0 ≤ acquired (fun n => if n = 0 then 5000 else 100) 1 := by
  refine ⟨?_, ?_, ?_⟩
  · have h := (c7_acquisition (fun n => if n = 0 then 5000 else 100) 0).1
    simpa using h (Or.inr (by norm_num))
  · have h := (c7_acquisition (fun n => if n = 0 then 5000 else 100) 1).2.1
    simpa using h (by norm_num) (by norm_num)
  · exact (c7_acquisition (fun n => if n = 0 then 5000 else 100) 1).2.2.1

/-- C9: for every input block of length 128, the IIR stage's output satisfies
`y[0] = x[0]` and `y[i] = 0.7 * y[i-1] + 0.3 * x[i]` for `0 < i < 128`
(and has length 128). -/
theorem c9_iir_recurrence (x : List ℚ) (hlen : x.length = 128) :
    (iirFilter x).length = 128 ∧
    (iirFilter x).getD 0 0 = x.getD 0 0 ∧
    ∀ i, i + 1 < 128 →
      (iirFilter x).getD (i + 1) 0 =
        7/10 * (iirFilter x).getD i 0 + 3/10 * x.getD (i + 1) 0 := by
  refine ⟨by rw [iirFilter_length, hlen], ?_, ?_⟩
  · cases x with
    | nil => simp at hlen
    | cons x0 t => simp [iirFilter]
  · intro i hi
    cases x with
    | nil => simp at hlen
    | cons x0 t =>
      have ht : i < t.length := by
        simp only [List.length_cons] at hlen
        omega
      have h := iirAux_getD t x0 i ht
      simpa [iirFilter] using h

/-- Witness for C9 on a concrete block: the all-zero block of length 128,
whose filtered values at indices 0 and 1 satisfy the recurrence. -/
theorem c9_iir_recurrence_witness :
    (iirFilter zeroBlock).length = 128 ∧
    (iirFilter zeroBlock).getD 1 0 =
      7/10 * (iirFilter zeroBlock).getD 0 0 + 3/10 * zeroBlock.getD 1 0 := by
  have h := c9_iir_recurrence zeroBlock (by simp [zeroBlock])
  exact ⟨h.1, h.2.2 0 (by norm_num)⟩

/-- C4: the temporal smoother's count never exceeds 50 from the start state
no matter the inputs or number of cycles; the per-cycle update rule is
`avg = (avg * count + a) / (count + 1)` with `count = min(count + 1, 50)`;
and after exactly 50 cycles of constant input `A` from the start state the
smoothed value equals `A` exactly (hence within any epsilon). -/
theorem c4_smoother :
    (∀ (inp : ℕ → ℚ) (n : ℕ), (smoothRun inp n).count ≤ 50) ∧
    (∀ (st : Smooth) (a : ℚ),
      (smoothStep st a).avg = (st.avg * (st.count : ℚ) + a) / ((st.count : ℚ) + 1) ∧
      (smoothStep st a).count = min (st.count + 1) 50) ∧
    (∀ A : ℚ, (smoothRun (fun _ => A) 50).avg = A) := by
  refine ⟨smoothRun_count_le, ?_, ?_⟩
  · intro st a
    refine ⟨rfl, ?_⟩
    simp only [smoothStep]
    split <;> omega
  · intro A
    simpa using smoothRun_const_avg A 49

/-- C6: the band-normalization step rescales each amplitude to
`(amp / energy) * gain`, gains 150/100/150, stored back into the `int`
variables, when the energy estimate is strictly positive; at energy 0 the
amplitudes are left exactly at their pre-normalization values (the division
is never evaluated, as the guard takes the other branch). -/
theorem c6_normalization (aR aG aB : ℤ) (e : ℚ) :
    (0 < e → normalizeAmps aR aG aB e =
      (ratTrunc ((aR : ℚ) / e * 150), ratTrunc ((aG : ℚ) / e * 100),
        ratTrunc ((aB : ℚ) / e * 150))) ∧
    (e = 0 → normalizeAmps aR aG aB e = (aR, aG, aB)) := by
  constructor
  · intro h
    simp [normalizeAmps, h]
  · intro h
    subst h
    simp [normalizeAmps]

/-- Witness for C6 at concrete inputs: with energy 1 the amplitudes 10, 20,
30 are rescaled to 1500, 2000, 4500; with energy 0 they are unchanged. -/
theorem c6_normalization_witness :
    normalizeAmps 10 20 30 1 = (1500, 2000, 4500) ∧
    normalizeAmps 10 20 30 0 = (10, 20, 30) := by
  constructor
  · have h := (c6_normalization 10 20 30 1).1 (by norm_num)
    rw [h]
    rw [show (((10 : ℤ) : ℚ) / 1 * 150) = ((1500 : ℤ) : ℚ) by norm_num,
      show (((20 : ℤ) : ℚ) / 1 * 100) = ((2000 : ℤ) : ℚ) by norm_num,
      show (((30 : ℤ) : ℚ) / 1 * 150) = ((4500 : ℤ) : ℚ) by norm_num,
      ratTrunc_intCast, ratTrunc_intCast, ratTrunc_intCast]
  · exact (c6_normalization 10 20 30 0).2 rfl

/-- C10: in the tiered bar mode (mode 1 of either variant, which also renders
mode 4 of variant 1), for every combination of amplitudes and thresholds all
writes stay inside the 16-LED group: red (bass) cells only at indices
`[0, 6)`, green (mid) cells only at `[6, 11)`, blue (treble) cells only at
`[11, 16)`, and every index at or beyond 16 stays cleared. -/
theorem c10_tier_segments (aR pR aG pG aB pB : ℤ) (i : ℕ) :
    (mode1Frame aR pR aG pG aB pB i = redC → i < 6) ∧
    (mode1Frame aR pR aG pG aB pB i = greenC → 6 ≤ i ∧ i < 11) ∧
    (mode1Frame aR pR aG pG aB pB i = blueC → 11 ≤ i ∧ i < 16) ∧
    (16 ≤ i → mode1Frame aR pR aG pG aB pB i = blackC) := by
  have hb := bassCount_bounds aR pR
  have hm := midCount_bounds aG pG
  have ht := trebCount_bounds aB pB
  unfold mode1Frame fillRange clearedF
  refine ⟨?_, ?_, ?_, ?_⟩ <;>
    · split_ifs <;> intro h <;>
        first
          | rfl
          | omega
          | exact absurd h (by decide)

/-- Witness for C10 at concrete inputs: index 20 of the tiered frame is
cleared, and the red cell at index 0 is inside the bass segment. -/
theorem c10_tier_segments_witness :
    mode1Frame 0 0 0 0 0 0 20 = blackC ∧ (0 : ℕ) < 6 := by
  constructor
  · exact (c10_tier_segments 0 0 0 0 0 0 20).2.2.2 (by norm_num)
  · exact (c10_tier_segments 0 0 0 0 0 0 0).1 mode1Frame_zero_at0

/-- C5: for every mode value outside `[1, 7]` the render dispatch of either
variant takes no branch, so every LED of every group buffer is still at its
cleared color when the frame is pushed; this is the silent fall-through of
the `if`/`else if` chain, not an error path. -/
theorem c5_unknown_mode (mode : ℤ) (hm : mode < 1 ∨ 7 < mode) :
    (∀ aR aG aB pR pG pB : ℤ, ∀ i : ℕ,
      (renderV1 mode aR aG aB pR pG pB).circles i = blackC ∧
      (renderV1 mode aR aG aB pR pG pB).squares i = blackC) ∧
    (∀ (w : ℕ → ℚ) (c s : ℕ → ℕ → ℚ) (sq : ℚ → ℚ) (x : In2) (i : ℕ),
      (renderV2 w c s sq mode x).c16 i = blackC ∧
      (renderV2 w c s sq mode x).c12 i = blackC ∧
      (renderV2 w c s sq mode x).lsq i = blackC ∧
      (renderV2 w c s sq mode x).rsq i = blackC) := by
  have h1 : mode ≠ 1 := by omega
  have h2 : mode ≠ 2 := by omega
  have h3 : mode ≠ 3 := by omega
  have h4 : mode ≠ 4 := by omega
  have h5 : mode ≠ 5 := by omega
  have h6 : mode ≠ 6 := by omega
  have h7 : mode ≠ 7 := by omega
  constructor
  · intro aR aG aB pR pG pB i
    constructor <;> simp [renderV1, h1, h2, h3, h4, h5, h6, h7, clearedF]
  · intro w c s sq x i
    refine ⟨?_, ?_, ?_, ?_⟩ <;> simp [renderV2, h1, h2, h3, h4, h5, h6, h7, clearedF]

/-- Witness for C5 at the concrete out-of-range modes 0 and 99. -/
theorem c5_unknown_mode_witness :
    (renderV1 0 1 2 3 4 5 6).circles 0 = blackC ∧
    (renderV2 (fun _ => 1) (fun _ _ => 0) (fun _ _ => 0) id 99 sampleIn2).c16 5 = blackC := by
  constructor
  · exact ((c5_unknown_mode 0 (by norm_num)).1 1 2 3 4 5 6 0).1
  · exact ((c5_unknown_mode 99 (by norm_num)).2 (fun _ => 1) (fun _ _ => 0)
      (fun _ _ => 0) id sampleIn2 5).1

/-- C3: in the energy-bucketed mode (variant 2, mode 3, on the 16-LED
circle), over the energy values 0, 250, ..., 4000 the number of lit LEDs is
non-decreasing in the energy value and reaches the group's full length 16
at the top of the range. -/
theorem c3_energy_buckets :
    (∀ e1 ∈ energyLevels, ∀ e2 ∈ energyLevels, e1 ≤ e2 →
      litCount16 (mode3Frame e1) ≤ litCount16 (mode3Frame e2)) ∧
    litCount16 (mode3Frame 4000) = 16 := by
  decide

/-- Witness for C3 at the concrete pair (0, 4000) of energy values. -/
theorem c3_energy_buckets_witness :
    litCount16 (mode3Frame 0) ≤ litCount16 (mode3Frame 4000) :=
  c3_energy_buckets.1 0 (by decide) 4000 (by decide) (by decide)

/-- C8: variant 2's mode 2 computes the sweep delay `1000000 / avgEnergy`
inside the branch with no guard on `avgEnergy`: at energy exactly 0 the
guard expression is a division by zero (`none` in the embedding), and that
case is reachable, since the pipeline yields energy 0 on the all-zero
block. -/
theorem c8_sweep_division_by_zero (w : ℕ → ℚ) (c s : ℕ → ℕ → ℚ) (sq : ℚ → ℚ)
    (hsq : sq 0 = 0) :
    (analyzer w c s sq zeroBlock).2.2.2 = 0 ∧
    sweepDelay 0 = none ∧
    ∀ elapsed, mode2Guard elapsed 0 = none := by
  refine ⟨?_, ?_, ?_⟩
  · rw [analyzer_zeroBlock w c s sq hsq]
  · simp [sweepDelay]
  · intro elapsed
    simp [mode2Guard, sweepDelay]

/-- Witness for C8 at a concrete instantiation of the transform parameters. -/
theorem c8_sweep_division_by_zero_witness :
    (analyzer (fun _ => 1) (fun _ _ => 0) (fun _ _ => 0) id zeroBlock).2.2.2 = 0 ∧
    sweepDelay 0 = none :=
  ⟨(c8_sweep_division_by_zero (fun _ => 1) (fun _ _ => 0) (fun _ _ => 0) id rfl).1,
   (c8_sweep_division_by_zero (fun _ => 1) (fun _ _ => 0) (fun _ _ => 0) id rfl).2.1⟩

/-- C2: in every brightness-wash mode, with `totalAmp = (ampR + ampG + ampB) / 3`
(C `int` division): `totalAmp = 0` gives brightness 0, `totalAmp` at or above
the mode's ceiling (600, or 1500 for variant 1's all-groups mode 7) gives
brightness clamped to 255, and between 0 and the ceiling the brightness is the
linear scaling `totalAmp * 255 / ceiling` (truncating integer division); the
resulting single brightness fills the mode's entire group(s) in the mode's
fixed color. -/
theorem c2_brightness_wash (aR aG aB pR pG pB : ℤ) :
    (Int.tdiv (aR + aG + aB) 3 = 0 →
      washBrightness aR aG aB 600 = 0 ∧ washBrightness aR aG aB 1500 = 0) ∧
    (600 ≤ Int.tdiv (aR + aG + aB) 3 → washBrightness aR aG aB 600 = 255) ∧
    (1500 ≤ Int.tdiv (aR + aG + aB) 3 → washBrightness aR aG aB 1500 = 255) ∧
    (0 ≤ Int.tdiv (aR + aG + aB) 3 → Int.tdiv (aR + aG + aB) 3 ≤ 600 →
      washBrightness aR aG aB 600 =
        Int.tdiv (Int.tdiv (aR + aG + aB) 3 * 255) 600) ∧
    (0 ≤ Int.tdiv (aR + aG + aB) 3 → Int.tdiv (aR + aG + aB) 3 ≤ 1500 →
      washBrightness aR aG aB 1500 =
        Int.tdiv (Int.tdiv (aR + aG + aB) 3 * 255) 1500) ∧
    (∀ i, 16 ≤ i → i < 28 → (renderV1 2 aR aG aB pR pG pB).circles i =
      mkCRGB (washBrightness aR aG aB 600) 0 (washBrightness aR aG aB 600)) ∧
    (∀ i, i < 28 → (renderV1 3 aR aG aB pR pG pB).circles i =
      mkCRGB (washBrightness aR aG aB 600) 0 (washBrightness aR aG aB 600)) ∧
    (∀ i, 16 ≤ i → i < 32 → (renderV1 5 aR aG aB pR pG pB).squares i =
      mkCRGB (washBrightness aR aG aB 600) 0 (washBrightness aR aG aB 600)) ∧
    (∀ i, i < 32 → (renderV1 6 aR aG aB pR pG pB).squares i =
      mkCRGB (washBrightness aR aG aB 600) 0 (washBrightness aR aG aB 600)) ∧
    (∀ i, i < 28 → (renderV1 7 aR aG aB pR pG pB).circles i =
      mkCRGB (washBrightness aR aG aB 1500) 0 (washBrightness aR aG aB 1500)) ∧
    (∀ i, i < 32 → (renderV1 7 aR aG aB pR pG pB).squares i =
      mkCRGB (washBrightness aR aG aB 1500) 0 (washBrightness aR aG aB 1500)) ∧
    (∀ (w : ℕ → ℚ) (c s : ℕ → ℕ → ℚ) (sq : ℚ → ℚ) (x : In2),
      x.aR = aR → x.aG = aG → x.aB = aB →
      (∀ i, i < 16 →
        (renderV2 w c s sq 6 x).lsq i = mkCRGB (washBrightness aR aG aB 600) 0 0 ∧
        (renderV2 w c s sq 6 x).rsq i = mkCRGB 0 (washBrightness aR aG aB 600) 0 ∧
        (renderV2 w c s sq 7 x).c16 i = mkCRGB (washBrightness aR aG aB 600) 0 0 ∧
        (renderV2 w c s sq 7 x).lsq i = mkCRGB (washBrightness aR aG aB 600) 0 0 ∧
        (renderV2 w c s sq 7 x).rsq i = mkCRGB 0 (washBrightness aR aG aB 600) 0) ∧
      (∀ i, i < 12 →
        (renderV2 w c s sq 7 x).c12 i = mkCRGB 0 (washBrightness aR aG aB 600) 0)) := by
  refine ⟨?_, ?_, ?_, ?_, ?_, ?_, ?_, ?_, ?_, ?_, ?_, ?_⟩
  · intro h
    unfold washBrightness
    rw [h]
    exact ⟨mapRange_low 0 0 600 0 255 le_rfl, mapRange_low 0 0 1500 0 255 le_rfl⟩
  · intro h
    unfold washBrightness
    exact mapRange_high _ 0 600 0 255 (by omega) h
  · intro h
    unfold washBrightness
    exact mapRange_high _ 0 1500 0 255 (by omega) h
  · intro h0 h1
    exact mapRange_linear _ 600 h0 h1 (by norm_num)
  · intro h0 h1
    exact mapRange_linear _ 1500 h0 h1 (by norm_num)
  · intro i hi1 hi2
    simp only [renderV1]
    norm_num
    exact fillRange_mem 16 28 i _ _ hi1 hi2
  · intro i hi
    simp only [renderV1]
    norm_num
    exact fillRange_mem 0 28 i _ _ (Nat.zero_le i) hi
  · intro i hi1 hi2
    simp only [renderV1]
    norm_num
    exact fillRange_mem 16 32 i _ _ hi1 hi2
  · intro i hi
    simp only [renderV1]
    norm_num
    exact fillRange_mem 0 32 i _ _ (Nat.zero_le i) hi
  · intro i hi
    simp only [renderV1]
    norm_num
    exact fillRange_mem 0 28 i _ _ (Nat.zero_le i) hi
  · intro i hi
    simp only [renderV1]
    norm_num
    exact fillRange_mem 0 32 i _ _ (Nat.zero_le i) hi
  · intro w c s sq x hR hG hB
    subst hR hG hB
    constructor
    · intro i hi
      refine ⟨?_, ?_, ?_, ?_, ?_⟩ <;>
        · simp only [renderV2]
          norm_num
          exact fillRange_mem _ _ i _ _ (Nat.zero_le i) hi
    · intro i hi
      simp only [renderV2]
      norm_num
      exact fillRange_mem 0 12 i _ _ (Nat.zero_le i) hi

/-- Witness for C2 at concrete amplitudes: total 0 gives brightness 0, total
900 saturates the 600-ceiling wash at 255, total 300 takes the linear value,
and LED 20 of the mode-2 circle group is filled with the wash color. -/
theorem c2_brightness_wash_witness :
    washBrightness 0 0 0 600 = 0 ∧
    washBrightness 900 900 900 600 = 255 ∧
    washBrightness 300 300 300 600 =
      Int.tdiv (Int.tdiv (300 + 300 + 300) 3 * 255) 600 ∧
    (renderV1 2 300 300 300 0 0 0).circles 20 =
      mkCRGB (washBrightness 300 300 300 600) 0 (washBrightness 300 300 300 600) := by
  refine ⟨?_, ?_, ?_, ?_⟩
  · exact ((c2_brightness_wash 0 0 0 0 0 0).1 (by decide)).1
  · exact (c2_brightness_wash 900 900 900 0 0 0).2.1 (by decide)
  · exact (c2_brightness_wash 300 300 300 0 0 0).2.2.2.1 (by decide) (by decide)
  · exact (c2_brightness_wash 300 300 300 0 0 0).2.2.2.2.2.1 20 (by norm_num) (by norm_num)

/-- C1 counterexample: on the all-zero sample block the pipeline does yield
band amplitudes (0, 0, 0) and energy 0, but the render step is not all-dark
for every mode in [1, 7]: in mode 1 (with the smoother state at its
process-start zeros, hence zero thresholds) the tier chain's final branch
lights LED 0 of the 16-LED circle red. -/
theorem c1_counterexample :
    analyzer (fun _ => 1) (fun _ _ => 0) (fun _ _ => 0) id zeroBlock = (0, 0, 0, 0) ∧
    porigOf 0 (4/5) = 0 ∧
    (renderV1 1 0 0 0 0 0 0).circles 0 = redC ∧
    redC ≠ blackC := by
  refine ⟨analyzer_zeroBlock _ _ _ _ rfl, ?_, ?_, by decide⟩
  · simp [porigOf, ratTrunc_zero]
  · simp only [renderV1]
    norm_num
    exact mode1Frame_zero_at0

/-- C1 (amended): on the all-zero sample block the pipeline yields band
amplitudes (0, 0, 0) and energy estimate 0, and with the render inputs at
their resulting process-start values the brightness-wash and raw modes
produce all-dark frames (variant 1 modes 2, 3, 5, 6, 7; variant 2 modes 4,
5, 6, 7), while the tiered bar modes (mode 1 of both variants, mode 4 of
variant 1), the rotating-sweep mode (variant 2 mode 2) and the
energy-bucket mode (variant 2 mode 3) each light at least one LED, so not
every mode yields an all-dark frame. -/
theorem c1_amended (w : ℕ → ℚ) (c s : ℕ → ℕ → ℚ) (sq : ℚ → ℚ) (hsq : sq 0 = 0) :
    analyzer w c s sq zeroBlock = (0, 0, 0, 0) ∧
    (∀ i : ℕ,
      (renderV1 2 0 0 0 0 0 0).circles i = blackC ∧
      (renderV1 2 0 0 0 0 0 0).squares i = blackC ∧
      (renderV1 3 0 0 0 0 0 0).circles i = blackC ∧
      (renderV1 3 0 0 0 0 0 0).squares i = blackC ∧
      (renderV1 5 0 0 0 0 0 0).circles i = blackC ∧
      (renderV1 5 0 0 0 0 0 0).squares i = blackC ∧
      (renderV1 6 0 0 0 0 0 0).circles i = blackC ∧
      (renderV1 6 0 0 0 0 0 0).squares i = blackC ∧
      (renderV1 7 0 0 0 0 0 0).circles i = blackC ∧
      (renderV1 7 0 0 0 0 0 0).squares i = blackC) ∧
    (renderV1 1 0 0 0 0 0 0).circles 0 = redC ∧
    (renderV1 4 0 0 0 0 0 0).squares 0 = redC ∧
    (∀ i : ℕ,
      (renderV2 w c s sq 4 zeroIn2).lsq i = blackC ∧
      (renderV2 w c s sq 5 zeroIn2).lsq i = blackC ∧
      (renderV2 w c s sq 5 zeroIn2).rsq i = blackC ∧
      (renderV2 w c s sq 6 zeroIn2).lsq i = blackC ∧
      (renderV2 w c s sq 6 zeroIn2).rsq i = blackC ∧
      (renderV2 w c s sq 7 zeroIn2).c16 i = blackC ∧
      (renderV2 w c s sq 7 zeroIn2).c12 i = blackC ∧
      (renderV2 w c s sq 7 zeroIn2).lsq i = blackC ∧
      (renderV2 w c s sq 7 zeroIn2).rsq i = blackC) ∧
    (renderV2 w c s sq 1 zeroIn2).c16 0 = redC ∧
    (renderV2 w c s sq 2 zeroIn2).c12 0 = blueC ∧
    (renderV2 w c s sq 3 zeroIn2).c16 0 = pinkC := by
  refine ⟨analyzer_zeroBlock w c s sq hsq, ?_, ?_, ?_, ?_, ?_, ?_, ?_⟩
  · intro i
    refine ⟨?_, ?_, ?_, ?_, ?_, ?_, ?_, ?_, ?_, ?_⟩ <;>
      simp [renderV1, washBrightness_zero, mkCRGB_zero, fillRange_blackC, clearedF]
  · simp only [renderV1]
    norm_num
    exact mode1Frame_zero_at0
  · simp only [renderV1]
    norm_num
    exact mode1Frame_zero_at0
  · intro i
    refine ⟨?_, ?_, ?_, ?_, ?_, ?_, ?_, ?_, ?_⟩
    · simp [renderV2, zeroIn2, mode4Frame_zeroBlock, clearedF]
    · simp only [renderV2, zeroIn2]
      norm_num
      rw [mode5Frames_zeroBlock w c s sq hsq]
      rfl
    · simp only [renderV2, zeroIn2]
      norm_num
      rw [mode5Frames_zeroBlock w c s sq hsq]
      rfl
    · simp [renderV2, zeroIn2, washBrightness_zero, mkCRGB_zero, fillRange_blackC, clearedF]
    · simp [renderV2, zeroIn2, washBrightness_zero, mkCRGB_zero, fillRange_blackC, clearedF]
    · simp [renderV2, zeroIn2, washBrightness_zero, mkCRGB_zero, fillRange_blackC, clearedF]
    · simp [renderV2, zeroIn2, washBrightness_zero, mkCRGB_zero, fillRange_blackC, clearedF]
    · simp [renderV2, zeroIn2, washBrightness_zero, mkCRGB_zero, fillRange_blackC, clearedF]
    · simp [renderV2, zeroIn2, washBrightness_zero, mkCRGB_zero, fillRange_blackC, clearedF]
  · simp only [renderV2, zeroIn2]
    norm_num
    exact mode1Frame_zero_at0
  · simp only [renderV2, zeroIn2]
    norm_num
    simp [mode2Frame, writeIdx]
  · simp only [renderV2, zeroIn2]
    norm_num
    rw [show mode3Frame 0 = fillRange 0 1 pinkC clearedF by
      norm_num [mode3Frame, mode3Count]]
    exact fillRange_mem 0 1 0 _ _ le_rfl (by norm_num)

/-- Witness for C1 (amended) at a concrete instantiation of the transform
parameters. -/
theorem c1_amended_witness :
    analyzer (fun _ => 1) (fun _ _ => 0) (fun _ _ => 0) id zeroBlock = (0, 0, 0, 0) ∧
    (renderV2 (fun _ => 1) (fun _ _ => 0) (fun _ _ => 0) id 5 zeroIn2).lsq 0 = blackC :=
  ⟨(c1_amended (fun _ => 1) (fun _ _ => 0) (fun _ _ => 0) id rfl).1,
   ((c1_amended (fun _ => 1) (fun _ _ => 0) (fun _ _ => 0) id rfl).2.2.2.2.1 0).2.1⟩

end LightMusic
